import Mathlib

/-!
# Shallow embedding of the keythings-dapp-engine core

This file embeds, in Lean 4, the parts of the `keythings-dapp-engine` Rust
crate that the verified claims are about:

* `src/ledger.rs`     — the shadow ledger (`Ledger`)
* `src/pool.rs`       — the AMM pool manager (`LiquidityPool`, pricing math)
* `src/engine.rs`     — the serialized limit-order engine (`handle_cancel`)
* `src/reconcile.rs`  — the reconciler (account tick body, `reconcile_pool`)
* `src/pool_api.rs`   — the `add_liquidity` HTTP handler

Modelling conventions:

* Rust `f64` amounts are modelled as exact rationals (`ℚ`).  The ledger only
  adds, subtracts, compares and clamps amounts, so the algebraic structure of
  every claim is preserved; binary rounding of individual `f64` operations is
  outside the embedding.  `f64::EPSILON` is the exact dyadic rational `2⁻⁵²`.
* Rust `u64`/`u128` arithmetic is modelled on `ℕ`.  The intermediate products
  in `pool.rs` are computed in `u128` and cannot overflow for `u64` inputs, so
  plain `ℕ` arithmetic is exact there; every `as u64` narrowing cast is
  modelled explicitly by `u64cast` (reduction mod `2⁶⁴`), and `u64 as i64`
  casts by `toI64` (two's complement reinterpretation).
* `DashMap`s are modelled as total functions with the `or_insert` default
  (`(0,0)` balances, `0` on-chain, `none` records): inserting the default for
  an absent key is observationally the identity in this representation.
* Timestamps (`Utc::now().to_rfc3339()`) are passed in as an explicit `now`
  argument; UUIDs as an explicit fresh-id argument.
* The `f64::powf` call in the weighted-pool formula has no exact embedding;
  it is abstracted as an explicit function parameter `powf : ℚ → ℚ → ℚ` that
  every theorem quantifies over (no verified claim evaluates a weighted pool).
-/

namespace Keythings

/-- A ledger key `(user_id, token)`, as in `ledger.rs`. -/
abbrev Key := String × String

/-- `WithdrawalStatus` from `models.rs`. -/
inductive WithdrawalStatus where
  | Pending
  | Completed
  | Failed
deriving DecidableEq

/-- `WithdrawalRecord` from `models.rs` (all fields). -/
structure WithdrawalRecord where
  id : String
  user_id : String
  token : String
  amount : String
  -- `to` in the source; renamed because `to` is a Lean keyword
  to_account : String
  status : WithdrawalStatus
  tx_id : Option String
  last_error : Option String
  updated_at : Option String
deriving DecidableEq

/-- The `Ledger` state from `ledger.rs`: shadow balances `(available, total)`
per `(user, token)`, the on-chain mirror, and the withdrawal-record store.
Maps are total functions with the `or_insert` defaults standing for absent
entries. -/
structure Ledger where
  balances : Key → ℚ × ℚ
  on_chain : Key → ℚ
  withdrawals : String → Option WithdrawalRecord

/-- The empty ledger (`Ledger::new`). -/
def Ledger.new : Ledger :=
  { balances := fun _ => (0, 0), on_chain := fun _ => 0, withdrawals := fun _ => none }

/-- `Ledger::credit`: adds `amt` to both `available` and `total`, and to the
on-chain mirror. -/
def Ledger.credit (l : Ledger) (user token : String) (amt : ℚ) : Ledger :=
  let key : Key := (user, token)
  let e := l.balances key
  { l with
    balances := Function.update l.balances key (e.1 + amt, e.2 + amt),
    on_chain := Function.update l.on_chain key (l.on_chain key + amt) }

/-- `Ledger::reserve`: if `available < amt` return `false` without mutation,
else subtract `amt` from `available` and return `true`. -/
def Ledger.reserve (l : Ledger) (user token : String) (amt : ℚ) : Ledger × Bool :=
  let key : Key := (user, token)
  let e := l.balances key
  if e.1 < amt then (l, false)
  else ({ l with balances := Function.update l.balances key (e.1 - amt, e.2) }, true)

/-- `Ledger::release`: adds `amt` back to `available` (unconditionally). -/
def Ledger.release (l : Ledger) (user token : String) (amt : ℚ) : Ledger :=
  let key : Key := (user, token)
  let e := l.balances key
  { l with balances := Function.update l.balances key (e.1 + amt, e.2) }

/-- `Ledger::debit_total`: subtracts `amt` from `total` only. -/
def Ledger.debit_total (l : Ledger) (user token : String) (amt : ℚ) : Ledger :=
  let key : Key := (user, token)
  let e := l.balances key
  { l with balances := Function.update l.balances key (e.1, e.2 - amt) }

/-- `Ledger::internal_balance`: the `(available, total)` pair (default `(0,0)`). -/
def Ledger.internal_balance (l : Ledger) (user token : String) : ℚ × ℚ :=
  l.balances (user, token)

/-- `Ledger::on_chain_balance` (default `0`). -/
def Ledger.on_chain_balance (l : Ledger) (user token : String) : ℚ :=
  l.on_chain (user, token)

/-- `Ledger::adjust_internal_balances`: reconciler repair op.  Preserves
`reserved = total − available`, shifts `total` by `diff`, clamps at zero, and
finally clamps `available` at `total`. -/
def Ledger.adjust_internal_balances (l : Ledger) (user token : String) (diff : ℚ) : Ledger :=
  let key : Key := (user, token)
  let e := l.balances key
  let reserved := max (e.2 - e.1) 0
  let total' := max (e.2 + diff) 0
  let avail0 := max (total' - reserved) 0
  let avail' := if avail0 > total' then total' else avail0
  { l with balances := Function.update l.balances key (avail', total') }

/-- `Ledger::record_withdrawal`: inserts a fresh `Pending` record. -/
def Ledger.record_withdrawal (l : Ledger) (id user token amount to_account now : String) : Ledger :=
  let r : WithdrawalRecord :=
    { id := id, user_id := user, token := token, amount := amount,
      to_account := to_account, status := WithdrawalStatus.Pending,
      tx_id := none, last_error := none, updated_at := some now }
  { l with withdrawals := Function.update l.withdrawals id (some r) }

/-- `Ledger::apply_on_chain_withdrawal` (private): decrements the on-chain
mirror by `amount`, clamped at zero. -/
def Ledger.apply_on_chain_withdrawal (l : Ledger) (user token : String) (amount : ℚ) : Ledger :=
  let key : Key := (user, token)
  { l with on_chain := Function.update l.on_chain key (max (l.on_chain key - amount) 0) }

/-- `Ledger::revert_withdrawal` (private): adds `amount` back to both
`available` and `total`. -/
def Ledger.revert_withdrawal (l : Ledger) (user token : String) (amount : ℚ) : Ledger :=
  let key : Key := (user, token)
  let e := l.balances key
  { l with balances := Function.update l.balances key (e.1 + amount, e.2 + amount) }

/-- `Ledger::complete_withdrawal`: if the record exists, mark it `Completed`
with `tx_id` set and `last_error` cleared; then apply the on-chain debit. -/
def Ledger.complete_withdrawal (l : Ledger) (id user token : String) (amount : ℚ)
    (tx_id now : String) : Ledger :=
  let l1 :=
    match l.withdrawals id with
    | some r =>
        let r' : WithdrawalRecord :=
          { r with status := WithdrawalStatus.Completed, tx_id := some tx_id,
                   last_error := none, updated_at := some now }
        { l with withdrawals := Function.update l.withdrawals id (some r') }
    | none => l
  l1.apply_on_chain_withdrawal user token amount

/-- `Ledger::fail_withdrawal`: if the record exists, mark it `Failed` with
`last_error` set and `tx_id` cleared; then revert the balances. -/
def Ledger.fail_withdrawal (l : Ledger) (id user token : String) (amount : ℚ)
    (error now : String) : Ledger :=
  let l1 :=
    match l.withdrawals id with
    | some r =>
        let r' : WithdrawalRecord :=
          { r with status := WithdrawalStatus.Failed, last_error := some error,
                   updated_at := some now, tx_id := none }
        { l with withdrawals := Function.update l.withdrawals id (some r') }
    | none => l
  l1.revert_withdrawal user token amount

/-- Rust's `as u64` narrowing cast on a `u128` value. -/
def u64cast (n : ℕ) : ℕ := n % 2 ^ 64

/-- Rust's `u64 as i64` cast: two's-complement reinterpretation. -/
def toI64 (n : ℕ) : ℤ :=
  let m : ℕ := n % 2 ^ 64
  if m < 2 ^ 63 then (m : ℤ) else (m : ℤ) - 2 ^ 64

/-- Wrapping `i64` subtraction (Rust release-mode overflow semantics). -/
def i64wrapSub (a b : ℤ) : ℤ := (a - b + 2 ^ 63) % 2 ^ 64 - 2 ^ 63

/-- `PoolType` from `pool.rs`. -/
inductive PoolType where
  | ConstantProduct
  | StableSwap (amplification : ℕ)
  | Weighted (weight_a weight_b : ℕ)
deriving DecidableEq

/-- `PoolError` from `pool.rs` (all variants). -/
inductive PoolError where
  | PoolAlreadyExists
  | PoolNotFound
  | PoolPaused
  | InvalidToken
  | InsufficientLiquidity
  | InsufficientInputAmount
  | InsufficientOutputAmount
  | InsufficientLiquidityMinted
  | InsufficientLiquidityBurned
  | InsufficientLPTokens
  | SlippageExceeded
  | ExcessivePriceImpact
deriving DecidableEq

/-- `LiquidityPool` from `pool.rs`.  The fields read or written by the
verified operations are embedded; the pure-telemetry fields
(`storage_account`, `protocol_fees_a/b`, `last_swap_*`) are not referenced by
any claim's code path and are omitted from the state. -/
structure LiquidityPool where
  id : String
  token_a : String
  token_b : String
  reserve_a : ℕ
  reserve_b : ℕ
  total_lp_supply : ℕ
  lp_token : String
  fee_rate : ℕ
  pool_type : PoolType
  paused : Bool
  on_chain_storage_account : String
  on_chain_reserve_a : ℕ
  on_chain_reserve_b : ℕ
  last_reconciled_at : Option String
  pending_settlement : Bool
deriving DecidableEq

/-- `LiquidityPool::constant_product_out`.  `fee_rate ≤ 10000` is assumed for
`10000 - fee_rate` (truncated subtraction; the source would panic/wrap on a
larger fee).  All `u128` intermediates are exact on `ℕ`; the final `as u64`
cast is `u64cast`. -/
def LiquidityPool.constant_product_out (p : LiquidityPool)
    (amount_in reserve_in reserve_out : ℕ) : Except PoolError ℕ :=
  if amount_in = 0 then Except.error PoolError.InsufficientInputAmount
  else if reserve_in = 0 ∨ reserve_out = 0 then Except.error PoolError.InsufficientLiquidity
  else
    let amount_in_with_fee := amount_in * (10000 - p.fee_rate) / 10000
    let numerator := amount_in_with_fee * reserve_out
    let denominator := reserve_in * 10000 + amount_in_with_fee
    let amount_out := u64cast (numerator / denominator)
    if amount_out = 0 then Except.error PoolError.InsufficientOutputAmount
    else Except.ok amount_out

/-- `LiquidityPool::stable_swap_out`.  The source compares a balance quotient
computed in `f64` against the literal `1.1`; here the comparison is exact on
`ℚ`.  When either reserve is zero the `f64` quotient is `inf`/`NaN`, so the
comparison is false and the source falls back to constant product; the
embedding makes that case explicit. -/
def LiquidityPool.stable_swap_out (p : LiquidityPool)
    (amount_in reserve_in reserve_out amplification : ℕ) : Except PoolError ℕ :=
  let balanced : Bool :=
    if reserve_in = 0 ∨ reserve_out = 0 then false
    else if reserve_out < reserve_in then
      decide ((reserve_in : ℚ) / (reserve_out : ℚ) < 11 / 10)
    else
      decide ((reserve_out : ℚ) / (reserve_in : ℚ) < 11 / 10)
  if balanced then
    let amplified_reserve_in := reserve_in * amplification
    let amplified_reserve_out := reserve_out * amplification
    let amount_in_with_fee := amount_in * (10000 - p.fee_rate) / 10000
    let numerator := amount_in_with_fee * amplified_reserve_out
    let denominator := amplified_reserve_in + amount_in_with_fee
    Except.ok (u64cast (numerator / denominator))
  else
    p.constant_product_out amount_in reserve_in reserve_out

/-- Rust's saturating `f64 as u64` cast on a (modelled) real value. -/
def f64ToU64 (q : ℚ) : ℕ :=
  if q < 0 then 0 else min (2 ^ 64 - 1) q.floor.toNat

/-- `LiquidityPool::weighted_pool_out`.  The Balancer power
`(reserve_in / (reserve_in + a_in_fee)).powf(w_in / w_out)` is floating
point with no exact embedding; it is abstracted by the parameter `powf`
(every theorem below quantifies over it — no verified claim evaluates a
weighted pool).  The surrounding integer fee math and the zero-output check
follow the source. -/
def LiquidityPool.weighted_pool_out (powf : ℚ → ℚ → ℚ) (p : LiquidityPool)
    (amount_in reserve_in reserve_out weight_in weight_out : ℕ) : Except PoolError ℕ :=
  let amount_in_with_fee := amount_in * (10000 - p.fee_rate) / 10000
  let r : ℚ :=
    powf ((reserve_in : ℚ) / ((reserve_in : ℚ) + (amount_in_with_fee : ℚ)))
      ((weight_in : ℚ) / (weight_out : ℚ))
  let amount_out := f64ToU64 ((reserve_out : ℚ) * (1 - r))
  if amount_out = 0 then Except.error PoolError.InsufficientOutputAmount
  else Except.ok amount_out

/-- `LiquidityPool::get_amount_out`: the paused check, the token dispatch and
the pool-type dispatch from `pool.rs`. -/
def LiquidityPool.get_amount_out (powf : ℚ → ℚ → ℚ) (p : LiquidityPool)
    (amount_in : ℕ) (token_in : String) : Except PoolError ℕ :=
  if p.paused then Except.error PoolError.PoolPaused
  else
    let dispatch : Option (ℕ × ℕ) :=
      if token_in = p.token_a then some (p.reserve_a, p.reserve_b)
      else if token_in = p.token_b then some (p.reserve_b, p.reserve_a)
      else none
    match dispatch with
    | none => Except.error PoolError.InvalidToken
    | some (reserve_in, reserve_out) =>
      match p.pool_type with
      | PoolType.ConstantProduct =>
          p.constant_product_out amount_in reserve_in reserve_out
      | PoolType.StableSwap amplification =>
          p.stable_swap_out amount_in reserve_in reserve_out amplification
      | PoolType.Weighted weight_a weight_b =>
          let wpair : ℕ × ℕ :=
            if token_in = p.token_a then (weight_a, weight_b) else (weight_b, weight_a)
          p.weighted_pool_out powf amount_in reserve_in reserve_out wpair.1 wpair.2

/-- `LiquidityPool::calculate_lp_mint`.  The source's `integer_sqrt` Newton
iteration computes `⌊√n⌋` on `u128`, modelled by `Nat.sqrt`; the first-deposit
`- 1000` and the `u128 / reserve` divisions follow the source (`ℕ` division by
zero yields 0 where the source would panic — every claim assumes positive
reserves). -/
def LiquidityPool.calculate_lp_mint (p : LiquidityPool) (amount_a amount_b : ℕ) :
    Except PoolError ℕ :=
  if p.total_lp_supply = 0 then
    Except.ok (u64cast (Nat.sqrt (amount_a * amount_b)) - 1000)
  else
    let liquidity_a := amount_a * p.total_lp_supply / p.reserve_a
    let liquidity_b := amount_b * p.total_lp_supply / p.reserve_b
    let liquidity := u64cast (min liquidity_a liquidity_b)
    if liquidity = 0 then Except.error PoolError.InsufficientLiquidityMinted
    else Except.ok liquidity

/-- `LiquidityPool::calculate_optimal_amounts`. -/
def LiquidityPool.calculate_optimal_amounts (p : LiquidityPool)
    (amount_a_desired amount_b_desired : ℕ) : ℕ × ℕ :=
  if p.reserve_a = 0 ∨ p.reserve_b = 0 then (amount_a_desired, amount_b_desired)
  else
    let amount_b_optimal := amount_a_desired * p.reserve_b / p.reserve_a
    if amount_b_optimal ≤ amount_b_desired then (amount_a_desired, u64cast amount_b_optimal)
    else
      let amount_a_optimal := amount_b_desired * p.reserve_a / p.reserve_b
      (u64cast amount_a_optimal, amount_b_desired)

/-- `LiquidityPool::calculate_remove_amounts`. -/
def LiquidityPool.calculate_remove_amounts (p : LiquidityPool) (lp_tokens : ℕ) :
    Except PoolError (ℕ × ℕ) :=
  if lp_tokens = 0 then Except.error PoolError.InsufficientLiquidityBurned
  else if lp_tokens > p.total_lp_supply then Except.error PoolError.InsufficientLPTokens
  else
    let amount_a := lp_tokens * p.reserve_a / p.total_lp_supply
    let amount_b := lp_tokens * p.reserve_b / p.total_lp_supply
    Except.ok (u64cast amount_a, u64cast amount_b)

/-- `PoolManager::pause_pool` restricted to the (existing) pool it mutates. -/
def LiquidityPool.pause (p : LiquidityPool) : LiquidityPool :=
  { p with paused := true }

/-- `PoolManager::update_reconciliation` restricted to the pool it mutates. -/
def LiquidityPool.update_reconciliation (p : LiquidityPool)
    (on_chain_reserve_a on_chain_reserve_b : ℕ) (timestamp : String) : LiquidityPool :=
  { p with on_chain_reserve_a := on_chain_reserve_a,
           on_chain_reserve_b := on_chain_reserve_b,
           last_reconciled_at := some timestamp,
           pending_settlement := false }

/-- `f64::EPSILON` is exactly `2⁻⁵²`. -/
def f64Epsilon : ℚ := 1 / 2 ^ 52

/-- `AUTO_CORRECT_THRESHOLD` in `reconcile.rs`; models the `f64` literal
`0.0001`. -/
def autoCorrectThreshold : ℚ := 1 / 10000

/-- `AccountStatus` from `reconcile.rs`. -/
inductive AccountStatus where
  | Healthy
  | AutoCorrected
  | Drift
deriving DecidableEq

/-- The per-key body of `run_once` in `reconcile.rs` (the reconciler account
tick visits every ledger key with this code).  Returns the updated ledger,
the classified status, and the re-read `final_diff` stored in the
`AccountReport`. -/
def visit_account (l : Ledger) (user token : String) : Ledger × AccountStatus × ℚ :=
  let internal_total := (l.internal_balance user token).2
  let on_chain := l.on_chain_balance user token
  let initial_diff := on_chain - internal_total
  let step : Ledger × AccountStatus :=
    if |initial_diff| ≤ f64Epsilon then (l, AccountStatus.Healthy)
    else if |initial_diff| ≤ autoCorrectThreshold then
      (l.adjust_internal_balances user token initial_diff, AccountStatus.AutoCorrected)
    else (l, AccountStatus.Drift)
  let corrected_total := (step.1.internal_balance user token).2
  (step.1, step.2, on_chain - corrected_total)

/-- `PoolReconcileResult` from `reconcile.rs`. -/
structure PoolReconcileResult where
  pool_id : String
  drift_a : ℤ
  drift_b : ℤ
  status : String
deriving DecidableEq

/-- `Reconciler::reconcile_pool` (the per-pool reconciler tick), specialised
to the pool it reads and mutates.  The chain queries
`verify_pool_reserves(..).await.unwrap_or(0)` are passed in as
`query_a`/`query_b` (`none` models a chain error, turned into `0`).  Drifts
are computed with `u64 as i64` casts and wrapping `i64` subtraction, as in
the source; a nonzero drift pauses the pool; `update_reconciliation` always
runs afterwards. -/
def reconcile_pool (p : LiquidityPool) (query_a query_b : Option ℕ) (now : String) :
    LiquidityPool × PoolReconcileResult :=
  let on_chain_a := (query_a.getD 0) % 2 ^ 64
  let on_chain_b := (query_b.getD 0) % 2 ^ 64
  let drift_a := i64wrapSub (toI64 on_chain_a) (toI64 p.reserve_a)
  let drift_b := i64wrapSub (toI64 on_chain_b) (toI64 p.reserve_b)
  let step : LiquidityPool × String :=
    if drift_a = 0 ∧ drift_b = 0 then (p, "ok") else (p.pause, "drift")
  let p2 := step.1.update_reconciliation on_chain_a on_chain_b now
  (p2, { pool_id := p.id, drift_a := drift_a, drift_b := drift_b, status := step.2 })

/-- `EngineError` from `engine.rs`. -/
inductive EngineError where
  | InvalidMarket
  | InsufficientBalance
  | Internal
  | OrderNotFound
deriving DecidableEq

/-- Modelled from the spec: `Side` is imported by `engine.rs` from
`models.rs` but its declaration is not under `src/`; spec §3 gives
`side ∈ {Buy, Sell}`. -/
inductive Side where
  | Buy
  | Sell
deriving DecidableEq

/-- Modelled from the spec: `LimitOrder` is imported by `engine.rs` from
`models.rs` but its declaration is not under `src/`; spec §3 gives an order
as `{market, side, price, quantity}` with `price`/`quantity` parsed as
decimals by the engine (so stored as strings). -/
structure LimitOrder where
  market : String
  price : String
  quantity : String
  side : Side
deriving DecidableEq

/-- Modelled from the spec: `PlacedOrder` (same situation as `LimitOrder`);
spec §4.2: place returns `{id, order, status: "open", filled: 0}`. -/
structure PlacedOrder where
  id : String
  order : LimitOrder
  status : String
  filled_quantity : String
deriving DecidableEq

/-- The open-orders map of `run_engine`:
`order id ↦ (owner, order, reserved_amount)`. -/
abbrev OpenOrders := String → Option (String × LimitOrder × ℚ)

/-- Rust's `str::split(char)` on a character list: the list of (possibly
empty) segments between occurrences of `c`; the empty string yields one
empty segment, as in Rust. -/
def splitChar (c : Char) : List Char → List (List Char)
  | [] => [[]]
  | x :: xs =>
    let r := splitChar c xs
    if x = c then [] :: r
    else
      match r with
      | [] => [[x]]
      | h :: t => (x :: h) :: t

/-- Rust's `str::trim` on a character list (leading and trailing whitespace
removed; Rust trims Unicode `White_Space`, `Char.isWhitespace` the ASCII
subset — no claim involves exotic whitespace). -/
def trimChars (l : List Char) : List Char :=
  ((l.dropWhile Char.isWhitespace).reverse.dropWhile Char.isWhitespace).reverse

/-- `parse_market` from `engine.rs`: split on `'/'`, demand exactly two
segments, trim both, demand both non-empty. -/
def parse_market (market : String) : Option (String × String) :=
  match splitChar '/' market.data with
  | [b, q] =>
    let base := trimChars b
    let quote := trimChars q
    if base.isEmpty ∨ quote.isEmpty then none
    else some (String.mk base, String.mk quote)
  | _ => none

/-- `handle_place` from `engine.rs`.  `parseNum` abstracts
`str::parse::<f64>()` (binary floating-point parsing has no exact embedding;
theorems quantify over it), `new_id` the freshly minted UUID. -/
def handle_place (parseNum : String → Option ℚ) (l : Ledger) (oo : OpenOrders)
    (user_id : String) (order : LimitOrder) (new_id : String) :
    Ledger × OpenOrders × Except EngineError PlacedOrder :=
  match parse_market order.market with
  | none => (l, oo, Except.error EngineError.InvalidMarket)
  | some (base, quote) =>
    match parseNum order.price with
    | none => (l, oo, Except.error EngineError.InvalidMarket)
    | some price =>
      match parseNum order.quantity with
      | none => (l, oo, Except.error EngineError.InvalidMarket)
      | some quantity =>
        let rpair : String × ℚ :=
          match order.side with
          | Side.Buy => (quote, price * quantity)
          | Side.Sell => (base, quantity)
        let step := l.reserve user_id rpair.1 rpair.2
        if step.2 then
          (step.1, Function.update oo new_id (some (user_id, order, rpair.2)),
           Except.ok { id := new_id, order := order, status := "open",
                       filled_quantity := "0" })
        else (step.1, oo, Except.error EngineError.InsufficientBalance)

/-- `handle_cancel` from `engine.rs`: remove the order; on owner mismatch put
it back and fail `Internal`; otherwise reparse market/price/quantity,
recompute the reservation and `release` `min(recomputed, reserved)`. -/
def handle_cancel (parseNum : String → Option ℚ) (l : Ledger) (oo : OpenOrders)
    (user_id id : String) : Ledger × OpenOrders × Except EngineError Unit :=
  match oo id with
  | none => (l, oo, Except.error EngineError.OrderNotFound)
  | some (owner, order, reserved) =>
    let oo1 : OpenOrders := Function.update oo id none
    if owner ≠ user_id then
      (l, Function.update oo1 id (some (owner, order, reserved)),
       Except.error EngineError.Internal)
    else
      match parse_market order.market with
      | none => (l, oo1, Except.error EngineError.InvalidMarket)
      | some (base, quote) =>
        match parseNum order.price with
        | none => (l, oo1, Except.error EngineError.InvalidMarket)
        | some price =>
          match parseNum order.quantity with
          | none => (l, oo1, Except.error EngineError.InvalidMarket)
          | some quantity =>
            let token : String :=
              match order.side with
              | Side.Buy => quote
              | Side.Sell => base
            let amount : ℚ :=
              match order.side with
              | Side.Buy => price * quantity
              | Side.Sell => quantity
            (l.release user_id token (min amount reserved), oo1, Except.ok ())

/-- Decimal-digit accumulator: `some` of the value when every character is
an ASCII digit, `none` otherwise. -/
def natOfDigitsAux : List Char → ℕ → Option ℕ
  | [], acc => some acc
  | c :: cs, acc =>
    if c.isDigit then natOfDigitsAux cs (acc * 10 + (c.toNat - Char.toNat '0'))
    else none

/-- Rust's `str::parse::<u64>().unwrap_or(0)` in `pool_api.rs`: an optional
leading `+`, then one or more decimal digits; overflow or any other shape
yields the `unwrap_or` default `0`. -/
def parse_u64 (s : String) : ℕ :=
  let chars : List Char :=
    match s.data with
    | '+' :: rest => rest
    | l => l
  match chars with
  | [] => 0
  | ds =>
    match natOfDigitsAux ds 0 with
    | some n => if n < 2 ^ 64 then n else 0
    | none => 0

/-- Outcome of the `verify_user_can_deposit` ACL query in `pool_api.rs`
(`Ok(true)` / `Ok(false)` / `Err` — the handler continues on `Err` in demo
mode). -/
inductive AclCheck where
  | granted
  | denied
  | errored
deriving DecidableEq

/-- A queued `SettlementOp::PoolDeposit` as produced by
`enqueue_pool_deposit` (the UUID op id, pure telemetry, is omitted). -/
structure PoolDepositOp where
  user_id : String
  pool_storage_account : String
  token : String
  amount : ℕ
deriving DecidableEq

/-- The observable outcome of the `add_liquidity` handler in `pool_api.rs`.
`success` carries the response's `amount_a`, `amount_b` and `lp_tokens`
(the `share_of_pool` percentage is an `f64` display string and is omitted). -/
inductive AddLiquidityOutcome where
  | poolNotFound
  | forbidden
  | insufficientBalanceA
  | insufficientBalanceB
  | success (amount_a amount_b lp_tokens : ℕ)
deriving DecidableEq

/-- The `add_liquidity` handler from `pool_api.rs` (lines 421–573).
`pools` is the pool registry, `acl` the result of the
`verify_user_can_deposit` chain query (only consulted when the pool has an
on-chain storage account; the source's paused check is commented out and is
likewise absent here).  `u64` deposit amounts enter the `f64` ledger via the
exact `ℕ → ℚ` cast. -/
def add_liquidity (pools : String → Option LiquidityPool) (acl : AclCheck)
    (l : Ledger) (queue : List PoolDepositOp)
    (wallet_address pool_id amount_a_desired_s amount_b_desired_s : String) :
    Ledger × List PoolDepositOp × AddLiquidityOutcome :=
  let amount_a_desired := parse_u64 amount_a_desired_s
  let amount_b_desired := parse_u64 amount_b_desired_s
  match pools pool_id with
  | none => (l, queue, AddLiquidityOutcome.poolNotFound)
  | some pool =>
    if pool.on_chain_storage_account ≠ "" ∧ acl = AclCheck.denied then
      (l, queue, AddLiquidityOutcome.forbidden)
    else
      let amounts := pool.calculate_optimal_amounts amount_a_desired amount_b_desired
      let amount_a := amounts.1
      let amount_b := amounts.2
      let stepA := l.reserve wallet_address pool.token_a (amount_a : ℚ)
      if stepA.2 = false then (stepA.1, queue, AddLiquidityOutcome.insufficientBalanceA)
      else
        let stepB := stepA.1.reserve wallet_address pool.token_b (amount_b : ℚ)
        if stepB.2 = false then
          (stepB.1.release wallet_address pool.token_a (amount_a : ℚ), queue,
           AddLiquidityOutcome.insufficientBalanceB)
        else
          let lp_tokens : ℕ :=
            match pool.calculate_lp_mint amount_a amount_b with
            | Except.ok lp => lp
            | Except.error _ => 1
          let queue' :=
            if pool.on_chain_storage_account ≠ "" then
              queue ++
                [{ user_id := wallet_address,
                   pool_storage_account := pool.on_chain_storage_account,
                   token := pool.token_a, amount := amount_a },
                 { user_id := wallet_address,
                   pool_storage_account := pool.on_chain_storage_account,
                   token := pool.token_b, amount := amount_b }]
            else queue
          let l3 :=
            ((stepB.1.debit_total wallet_address pool.token_a (amount_a : ℚ)).debit_total
                wallet_address pool.token_b (amount_b : ℚ)).credit
              wallet_address pool.lp_token (lp_tokens : ℚ)
          (l3, queue', AddLiquidityOutcome.success amount_a amount_b lp_tokens)

/-! ## Concrete states used by counterexamples and witnesses -/

/-- The `USDT-USDX` pool of spec scenario 3 and of the source's own
`test_constant_product_swap`, exactly as `create_pool("USDT","USDX",
1_000_000, 1_000_000, 30, ConstantProduct)` builds it
(`total_lp_supply = ⌊√(10¹²)⌋ − 1 = 999_999`). -/
def demoPool : LiquidityPool :=
  { id := "USDT-USDX", token_a := "USDT", token_b := "USDX",
    reserve_a := 1000000, reserve_b := 1000000, total_lp_supply := 999999,
    lp_token := "LP-USDT-USDX", fee_rate := 30,
    pool_type := PoolType.ConstantProduct, paused := false,
    on_chain_storage_account := "", on_chain_reserve_a := 0,
    on_chain_reserve_b := 0, last_reconciled_at := none,
    pending_settlement := false }

/-- The Uniswap-v2 output the spec's scenario 3 (and the source's own unit
test) expects from that swap: fee applied once, denominator
`reserve_in + a_in_fee` (no stray `× 10000`). -/
def constant_product_out_expected (fee_rate amount_in reserve_in reserve_out : ℕ) : ℕ :=
  let amount_in_with_fee := amount_in * (10000 - fee_rate) / 10000
  amount_in_with_fee * reserve_out / (reserve_in + amount_in_with_fee)

/-- A throwaway instantiation of the abstract `powf` parameter, used only to
instantiate universally quantified theorems in witnesses. -/
def pow0 : ℚ → ℚ → ℚ := fun _ _ => 0

/-- A pending withdrawal record for 60 USDT by alice. -/
def exampleRecordPending : WithdrawalRecord :=
  { id := "w1", user_id := "alice", token := "USDT", amount := "60",
    to_account := "addr", status := WithdrawalStatus.Pending,
    tx_id := none, last_error := none, updated_at := none }

/-- A ledger holding only `exampleRecordPending` (all balances and the
on-chain mirror at their defaults). -/
def exampleLedgerC4 : Ledger :=
  { Ledger.new with
    withdrawals := Function.update Ledger.new.withdrawals "w1" (some exampleRecordPending) }

/-- A ledger in mid-withdrawal shape (spec scenario 5): the state reached by
`credit("alice","USDT",100); reserve(..,60); debit_total(..,60);
record_withdrawal("w1",..)` — balances `(40, 40)`, on-chain mirror `100`,
record `w1` pending. -/
def exampleLedgerC2 : Ledger :=
  { balances := Function.update (fun _ => (0, 0)) ("alice", "USDT") (40, 40),
    on_chain := Function.update (fun _ => 0) ("alice", "USDT") 100,
    withdrawals := Function.update (fun _ => none) "w1" (some exampleRecordPending) }

/-- A small constant-product pool with supply 10 and reserves 10/10. -/
def examplePoolSmall : LiquidityPool :=
  { id := "TKA-TKB", token_a := "TKA", token_b := "TKB",
    reserve_a := 10, reserve_b := 10, total_lp_supply := 10,
    lp_token := "LP-TKA-TKB", fee_rate := 30,
    pool_type := PoolType.ConstantProduct, paused := false,
    on_chain_storage_account := "", on_chain_reserve_a := 0,
    on_chain_reserve_b := 0, last_reconciled_at := none,
    pending_settlement := false }

/-- The pool of spec scenario 6: reserves 1000/1000. -/
def examplePoolDrift : LiquidityPool :=
  { id := "TKA-TKB", token_a := "TKA", token_b := "TKB",
    reserve_a := 1000, reserve_b := 1000, total_lp_supply := 999,
    lp_token := "LP-TKA-TKB", fee_rate := 30,
    pool_type := PoolType.ConstantProduct, paused := false,
    on_chain_storage_account := "S_pool", on_chain_reserve_a := 1000,
    on_chain_reserve_b := 1000, last_reconciled_at := none,
    pending_settlement := false }

/-- A one-pool registry for the `add_liquidity` witness. -/
def examplePools : String → Option LiquidityPool :=
  Function.update (fun _ => none) "TKA-TKB" (some examplePoolDrift)

/-- A concrete instantiation of the abstract decimal parser `parseNum`
(`str::parse::<f64>()`), used only to instantiate universally quantified
engine theorems in witnesses: parses natural numbers. -/
def demoParseNum : String → Option ℚ :=
  fun s =>
    match s.data with
    | [] => none
    | ds => (natOfDigitsAux ds 0).map (fun n => (n : ℚ))

/-- A resting buy order: 100 ETH at price 2 USDT on `ETH/USDT`. -/
def exampleOrder : LimitOrder :=
  { market := "ETH/USDT", price := "2", quantity := "100", side := Side.Buy }

/-- An open-orders map holding only `exampleOrder`, owned by alice with 200
USDT reserved (as `handle_place` would have stored it). -/
def exampleOpenOrders : OpenOrders :=
  Function.update (fun _ => none) "o1" (some ("alice", exampleOrder, (200 : ℚ)))

/-! ## Supporting lemmas (shared) -/

theorem handle_place_stores_parseable (parseNum : String → Option ℚ) (l : Ledger)
    (oo : OpenOrders) (user : String) (order : LimitOrder) (new_id : String)
    (l' : Ledger) (oo' : OpenOrders) (po : PlacedOrder)
    (h : handle_place parseNum l oo user order new_id = (l', oo', Except.ok po)) :
    (∃ bq, parse_market order.market = some bq) ∧
    (∃ price, parseNum order.price = some price) ∧
    (∃ qty, parseNum order.quantity = some qty) := by
  cases hmkt : parse_market order.market with
  | none => simp [handle_place, hmkt] at h
  | some bq =>
    cases hprice : parseNum order.price with
    | none => simp [handle_place, hmkt, hprice] at h
    | some price =>
      cases hqty : parseNum order.quantity with
      | none => simp [handle_place, hmkt, hprice, hqty] at h
      | some qty => exact ⟨⟨bq, rfl⟩, ⟨price, rfl⟩, ⟨qty, rfl⟩⟩

theorem credit_on_chain_nonneg (l : Ledger) (u t : String) (amt : ℚ)
    (h : ∀ k, 0 ≤ l.on_chain k) (ha : 0 ≤ amt) :
    ∀ k, 0 ≤ (l.credit u t amt).on_chain k := by
  intro k
  by_cases hk : k = (u, t)
  · subst hk
    simp only [Ledger.credit, Function.update_same]
    have := h (u, t)
    linarith
  · simp only [Ledger.credit, Function.update_noteq hk]
    exact h k

theorem complete_withdrawal_on_chain_nonneg (l : Ledger) (id u t : String) (amt : ℚ)
    (tx now : String) (h : ∀ k, 0 ≤ l.on_chain k) :
    ∀ k, 0 ≤ (l.complete_withdrawal id u t amt tx now).on_chain k := by
  intro k
  by_cases hk : k = (u, t)
  · subst hk
    cases hr : l.withdrawals id <;>
      simp [Ledger.complete_withdrawal, Ledger.apply_on_chain_withdrawal, hr,
        Function.update_same, le_max_iff]
  · cases hr : l.withdrawals id <;>
      simp only [Ledger.complete_withdrawal, Ledger.apply_on_chain_withdrawal, hr,
        Function.update_noteq hk] <;>
      exact h k

theorem fail_withdrawal_on_chain_unchanged (l : Ledger) (id u t : String) (amt : ℚ)
    (err now : String) :
    (l.fail_withdrawal id u t amt err now).on_chain = l.on_chain := by
  cases hr : l.withdrawals id <;>
    simp [Ledger.fail_withdrawal, Ledger.revert_withdrawal, hr]

theorem adjust_on_chain_unchanged (l : Ledger) (u t : String) (diff : ℚ) :
    (l.adjust_internal_balances u t diff).on_chain = l.on_chain := by
  simp [Ledger.adjust_internal_balances]

/-! ## The claims -/

/-- C1: the source computes `amount_out = 0` for the spec's CPMM scenario
(fee-adjusted input already divided by 10000, denominator again scaled by
10000), so `get_amount_out(1000, "USDT")` on the `USDT-USDX` 10⁶/10⁶ pool
returns `InsufficientOutputAmount` instead of a value in `(995, 998)` — the
source's own `test_constant_product_swap` fails on this. -/
theorem C1_cpmm_swap_returns_insufficient_output (powf : ℚ → ℚ → ℚ) :
    demoPool.get_amount_out powf 1000 "USDT" =
      Except.error PoolError.InsufficientOutputAmount := by
  rfl

/-- The Uniswap-v2 formula that the spec's scenario and the source's unit
test expect does give an output in `(995, 998)`: 996. -/
theorem C1_expected_output_in_range :
    995 < constant_product_out_expected 30 1000 1000000 1000000 ∧
      constant_product_out_expected 30 1000 1000000 1000000 < 998 := by
  constructor <;> decide

/-- C2: `fail_withdrawal` on an existing (pending) record marks it `Failed`
with `last_error` set, and adds `amount` to both `available` and `total` of
`(user, token)`. -/
theorem C2_fail_withdrawal_reverts (l : Ledger) (id user token err now : String)
    (amount : ℚ) (r : WithdrawalRecord)
    (hr : l.withdrawals id = some r) (_hp : r.status = WithdrawalStatus.Pending) :
    (l.fail_withdrawal id user token amount err now).withdrawals id =
      some { r with
              status := WithdrawalStatus.Failed, last_error := some err,
              updated_at := some now, tx_id := none } ∧
    ((l.fail_withdrawal id user token amount err now).balances (user, token)).1 =
      (l.balances (user, token)).1 + amount ∧
    ((l.fail_withdrawal id user token amount err now).balances (user, token)).2 =
      (l.balances (user, token)).2 + amount := by
  simp [Ledger.fail_withdrawal, Ledger.revert_withdrawal, hr, Function.update]

/-- C2 witness: spec scenario 5 (`(40,40)` mid-pipeline state, withdraw 60,
chain error) — post state has both balances increased by 60 and the record
`Failed`. -/
theorem C2_witness :
    (exampleLedgerC2.withdrawals "w1" = some exampleRecordPending) ∧
    (exampleRecordPending.status = WithdrawalStatus.Pending) ∧
    ((exampleLedgerC2.fail_withdrawal "w1" "alice" "USDT" 60 "chain error" "now").withdrawals "w1" =
      some { exampleRecordPending with
              status := WithdrawalStatus.Failed,
              last_error := some "chain error", updated_at := some "now", tx_id := none } ∧
     ((exampleLedgerC2.fail_withdrawal "w1" "alice" "USDT" 60 "chain error" "now").balances
        ("alice", "USDT")).1 = (exampleLedgerC2.balances ("alice", "USDT")).1 + 60 ∧
     ((exampleLedgerC2.fail_withdrawal "w1" "alice" "USDT" 60 "chain error" "now").balances
        ("alice", "USDT")).2 = (exampleLedgerC2.balances ("alice", "USDT")).2 + 60) := by
  exact ⟨rfl, rfl,
    C2_fail_withdrawal_reverts exampleLedgerC2 "w1" "alice" "USDT" "chain error" "now" 60
      exampleRecordPending rfl rfl⟩

/-- C3 counterexample: from the empty ledger (where `available = total = 0`
and the invariant holds), `release("u","USDT",1)` leaves
`available = 1 > 0 = total`: `release` does not preserve
`available ≤ total` for arbitrary non-negative amounts. -/
theorem C3_counterexample :
    (Ledger.new.balances ("u", "USDT")).1 ≤ (Ledger.new.balances ("u", "USDT")).2 ∧
    (0 : ℚ) ≤ 1 ∧
    ¬ (((Ledger.new.release "u" "USDT" 1).balances ("u", "USDT")).1 ≤
        ((Ledger.new.release "u" "USDT" 1).balances ("u", "USDT")).2) := by
  refine ⟨by norm_num [Ledger.new], by norm_num, ?_⟩
  norm_num [Ledger.new, Ledger.release, Function.update]

/-- C3 amended: `release` preserves `available ≤ total` when the released
amount does not exceed the reserved amount `total − available` (which is how
every caller in the source uses it). -/
theorem C3_release_keeps_available_le_total (l : Ledger) (u t : String) (amt : ℚ)
    (_hinv : (l.balances (u, t)).1 ≤ (l.balances (u, t)).2)
    (_hamt : 0 ≤ amt)
    (hres : amt ≤ (l.balances (u, t)).2 - (l.balances (u, t)).1) :
    ((l.release u t amt).balances (u, t)).1 ≤ ((l.release u t amt).balances (u, t)).2 := by
  simp only [Ledger.release, Function.update_same]
  linarith

/-- C3 witness: balances `(5, 10)` (5 reserved), releasing 3 keeps
`available = 8 ≤ 10 = total`. -/
theorem C3_witness :
    ((((Ledger.new.credit "u" "t" 10).reserve "u" "t" 5).1.balances ("u", "t")).1 ≤
        (((Ledger.new.credit "u" "t" 10).reserve "u" "t" 5).1.balances ("u", "t")).2) ∧
    ((0 : ℚ) ≤ 3) ∧
    ((3 : ℚ) ≤ (((Ledger.new.credit "u" "t" 10).reserve "u" "t" 5).1.balances ("u", "t")).2 -
        (((Ledger.new.credit "u" "t" 10).reserve "u" "t" 5).1.balances ("u", "t")).1) ∧
    (((((Ledger.new.credit "u" "t" 10).reserve "u" "t" 5).1.release "u" "t" 3).balances
        ("u", "t")).1 ≤
      ((((Ledger.new.credit "u" "t" 10).reserve "u" "t" 5).1.release "u" "t" 3).balances
        ("u", "t")).2) := by
  have h1 : ((((Ledger.new.credit "u" "t" 10).reserve "u" "t" 5).1.balances ("u", "t")).1 ≤
      (((Ledger.new.credit "u" "t" 10).reserve "u" "t" 5).1.balances ("u", "t")).2) := by
    norm_num [Ledger.new, Ledger.credit, Ledger.reserve, Function.update]
  have h3 : ((3 : ℚ) ≤ (((Ledger.new.credit "u" "t" 10).reserve "u" "t" 5).1.balances
      ("u", "t")).2 - (((Ledger.new.credit "u" "t" 10).reserve "u" "t" 5).1.balances
      ("u", "t")).1) := by
    norm_num [Ledger.new, Ledger.credit, Ledger.reserve, Function.update]
  exact ⟨h1, by norm_num, h3,
    C3_release_keeps_available_le_total _ "u" "t" 3 h1 (by norm_num) h3⟩

/-- C4 counterexample: with the on-chain mirror of `("alice","USDT")` at 0
and a pending record for 60, `complete_withdrawal` clamps the mirror at 0
(the source writes `(on_chain - amount).max(0.0)`), so the mirror decreases
by 0, not by the claimed `amount = 60`. -/
theorem C4_counterexample :
    exampleLedgerC4.withdrawals "w1" = some exampleRecordPending ∧
    exampleRecordPending.status = WithdrawalStatus.Pending ∧
    ¬ (exampleLedgerC4.on_chain_balance "alice" "USDT" -
        (exampleLedgerC4.complete_withdrawal "w1" "alice" "USDT" 60 "tx" "now").on_chain_balance
          "alice" "USDT" = 60) := by
  refine ⟨rfl, rfl, ?_⟩
  norm_num [exampleLedgerC4, Ledger.new, Ledger.complete_withdrawal,
    Ledger.apply_on_chain_withdrawal, Ledger.on_chain_balance, Function.update,
    exampleRecordPending]

/-- C4 amended: `complete_withdrawal` on an existing pending record marks it
`Completed` with `tx_id = tx` and `last_error = None`, and decreases the
on-chain mirror by exactly `amount` provided the mirror held at least
`amount` (otherwise the source clamps the mirror at zero). -/
theorem C4_complete_withdrawal (l : Ledger) (id user token tx now : String)
    (amount : ℚ) (r : WithdrawalRecord)
    (hr : l.withdrawals id = some r) (_hp : r.status = WithdrawalStatus.Pending)
    (hoc : amount ≤ l.on_chain_balance user token) :
    (l.complete_withdrawal id user token amount tx now).withdrawals id =
      some { r with
              status := WithdrawalStatus.Completed, tx_id := some tx,
              last_error := none, updated_at := some now } ∧
    (l.complete_withdrawal id user token amount tx now).on_chain_balance user token =
      l.on_chain_balance user token - amount := by
  constructor
  · simp [Ledger.complete_withdrawal, Ledger.apply_on_chain_withdrawal, hr, Function.update]
  · simp only [Ledger.complete_withdrawal, Ledger.apply_on_chain_withdrawal,
      Ledger.on_chain_balance, hr, Function.update_same]
    simp only [Ledger.on_chain_balance] at hoc
    exact max_eq_left (by linarith)

/-- C4 witness: alice's mirror credited to 100, completing the pending
60-withdrawal leaves the mirror at `100 − 60`. -/
theorem C4_witness :
    ((exampleLedgerC4.credit "alice" "USDT" 100).withdrawals "w1" = some exampleRecordPending) ∧
    (exampleRecordPending.status = WithdrawalStatus.Pending) ∧
    ((60 : ℚ) ≤ (exampleLedgerC4.credit "alice" "USDT" 100).on_chain_balance "alice" "USDT") ∧
    (((exampleLedgerC4.credit "alice" "USDT" 100).complete_withdrawal "w1" "alice" "USDT" 60
        "tx" "now").withdrawals "w1" =
      some { exampleRecordPending with
              status := WithdrawalStatus.Completed,
              tx_id := some "tx", last_error := none, updated_at := some "now" } ∧
     ((exampleLedgerC4.credit "alice" "USDT" 100).complete_withdrawal "w1" "alice" "USDT" 60
        "tx" "now").on_chain_balance "alice" "USDT" =
       (exampleLedgerC4.credit "alice" "USDT" 100).on_chain_balance "alice" "USDT" - 60) := by
  have hoc : (60 : ℚ) ≤ (exampleLedgerC4.credit "alice" "USDT" 100).on_chain_balance
      "alice" "USDT" := by
    norm_num [exampleLedgerC4, Ledger.new, Ledger.credit, Ledger.on_chain_balance,
      Function.update]
  exact ⟨rfl, rfl, hoc,
    C4_complete_withdrawal _ "w1" "alice" "USDT" "tx" "now" 60 exampleRecordPending rfl rfl hoc⟩

/-- C5: the reconciler account visit classifies by `diff = on_chain −
internal_total`: within machine epsilon ⇒ `Healthy` and the ledger is
untouched; within the 1e-4 auto-correct threshold ⇒ `AutoCorrected` and the
re-read diff is within epsilon; beyond ⇒ `Drift` and the ledger is
untouched.  (`0 ≤ on_chain` is an invariant of every ledger operation: the
mirror starts at 0, `credit` adds non-negative deposits and
`complete_withdrawal` clamps at zero — see the `on_chain_nonneg` lemmas.) -/
theorem C5_account_classification (l : Ledger) (u t : String)
    (hoc : 0 ≤ l.on_chain_balance u t) :
    (|l.on_chain_balance u t - (l.internal_balance u t).2| ≤ f64Epsilon →
      (visit_account l u t).2.1 = AccountStatus.Healthy ∧ (visit_account l u t).1 = l) ∧
    (f64Epsilon < |l.on_chain_balance u t - (l.internal_balance u t).2| ∧
      |l.on_chain_balance u t - (l.internal_balance u t).2| ≤ autoCorrectThreshold →
      (visit_account l u t).2.1 = AccountStatus.AutoCorrected ∧
      |l.on_chain_balance u t - ((visit_account l u t).1.internal_balance u t).2| ≤ f64Epsilon) ∧
    (autoCorrectThreshold < |l.on_chain_balance u t - (l.internal_balance u t).2| →
      (visit_account l u t).2.1 = AccountStatus.Drift ∧ (visit_account l u t).1 = l) := by
  refine ⟨fun h1 => ?_, fun ⟨h2a, h2b⟩ => ?_, fun h3 => ?_⟩
  · simp [visit_account, h1]
  · have h1' : ¬ (|l.on_chain_balance u t - (l.internal_balance u t).2| ≤ f64Epsilon) :=
      not_le.mpr h2a
    constructor
    · simp [visit_account, h1', h2b]
    · simp only [visit_account, h1', h2b, if_true, if_false, ite_true, ite_false]
      simp only [Ledger.adjust_internal_balances, Ledger.internal_balance,
        Ledger.on_chain_balance, Function.update_same]
      have hkey : (l.balances (u, t)).2 +
          (l.on_chain (u, t) - (l.balances (u, t)).2) = l.on_chain (u, t) := by ring
      rw [hkey]
      rw [max_eq_left (by simpa [Ledger.on_chain_balance] using hoc)]
      simp [f64Epsilon]
  · have h1' : ¬ (|l.on_chain_balance u t - (l.internal_balance u t).2| ≤ f64Epsilon) := by
      push_neg
      calc f64Epsilon < autoCorrectThreshold := by norm_num [f64Epsilon, autoCorrectThreshold]
        _ < _ := h3
    have h2' : ¬ (|l.on_chain_balance u t - (l.internal_balance u t).2| ≤ autoCorrectThreshold) :=
      not_le.mpr h3
    simp [visit_account, h1', h2']

/-- C5 witness: the mid-withdrawal ledger (total 40, mirror 100, diff 60):
the visit classifies `Drift` and leaves the ledger unchanged (the other two
implications hold vacuously). -/
theorem C5_witness :
    (0 ≤ exampleLedgerC2.on_chain_balance "alice" "USDT") ∧
    ((|exampleLedgerC2.on_chain_balance "alice" "USDT" -
        (exampleLedgerC2.internal_balance "alice" "USDT").2| ≤ f64Epsilon →
      (visit_account exampleLedgerC2 "alice" "USDT").2.1 = AccountStatus.Healthy ∧
      (visit_account exampleLedgerC2 "alice" "USDT").1 = exampleLedgerC2) ∧
    (f64Epsilon < |exampleLedgerC2.on_chain_balance "alice" "USDT" -
        (exampleLedgerC2.internal_balance "alice" "USDT").2| ∧
      |exampleLedgerC2.on_chain_balance "alice" "USDT" -
        (exampleLedgerC2.internal_balance "alice" "USDT").2| ≤ autoCorrectThreshold →
      (visit_account exampleLedgerC2 "alice" "USDT").2.1 = AccountStatus.AutoCorrected ∧
      |exampleLedgerC2.on_chain_balance "alice" "USDT" -
        ((visit_account exampleLedgerC2 "alice" "USDT").1.internal_balance "alice" "USDT").2| ≤
        f64Epsilon) ∧
    (autoCorrectThreshold < |exampleLedgerC2.on_chain_balance "alice" "USDT" -
        (exampleLedgerC2.internal_balance "alice" "USDT").2| →
      (visit_account exampleLedgerC2 "alice" "USDT").2.1 = AccountStatus.Drift ∧
      (visit_account exampleLedgerC2 "alice" "USDT").1 = exampleLedgerC2)) := by
  have hoc : 0 ≤ exampleLedgerC2.on_chain_balance "alice" "USDT" := by
    norm_num [exampleLedgerC2, Ledger.on_chain_balance, Function.update]
  exact ⟨hoc, C5_account_classification exampleLedgerC2 "alice" "USDT" hoc⟩

/-- C6: a pool-reconciliation tick that computes a nonzero `drift_a` or
`drift_b` pauses the pool and stamps `last_reconciled_at`; every
`get_amount_out` on the resulting pool state returns `PoolPaused` (for any
amount, token and weighted-pool float model). -/
theorem C6_pool_drift_pauses (powf : ℚ → ℚ → ℚ) (p : LiquidityPool)
    (query_a query_b : Option ℕ) (now : String)
    (h : (reconcile_pool p query_a query_b now).2.drift_a ≠ 0 ∨
        (reconcile_pool p query_a query_b now).2.drift_b ≠ 0) :
    (reconcile_pool p query_a query_b now).1.paused = true ∧
    (reconcile_pool p query_a query_b now).1.last_reconciled_at = some now ∧
    ∀ (amount_in : ℕ) (token_in : String),
      (reconcile_pool p query_a query_b now).1.get_amount_out powf amount_in token_in =
        Except.error PoolError.PoolPaused := by
  by_cases hc :
      (i64wrapSub (toI64 ((query_a.getD 0) % 2 ^ 64)) (toI64 p.reserve_a) = 0 ∧
       i64wrapSub (toI64 ((query_b.getD 0) % 2 ^ 64)) (toI64 p.reserve_b) = 0)
  · exfalso
    simp only [reconcile_pool, hc, if_true] at h
    rcases h with h | h <;> simp_all
  · simp only [reconcile_pool, hc, if_false]
    refine ⟨rfl, rfl, fun amount_in token_in => ?_⟩
    simp [LiquidityPool.get_amount_out, LiquidityPool.update_reconciliation,
      LiquidityPool.pause]

/-- C6 witness: spec scenario 6 — reserves 1000/1000, chain returns
1000/900; the tick pauses the pool, stamps the timestamp, and the next quote
returns `PoolPaused`. -/
theorem C6_witness :
    ((reconcile_pool examplePoolDrift (some 1000) (some 900) "now").2.drift_a ≠ 0 ∨
     (reconcile_pool examplePoolDrift (some 1000) (some 900) "now").2.drift_b ≠ 0) ∧
    (reconcile_pool examplePoolDrift (some 1000) (some 900) "now").1.paused = true ∧
    (reconcile_pool examplePoolDrift (some 1000) (some 900) "now").1.last_reconciled_at =
      some "now" ∧
    (reconcile_pool examplePoolDrift (some 1000) (some 900) "now").1.get_amount_out pow0
      1000 "TKA" = Except.error PoolError.PoolPaused := by
  have h : ((reconcile_pool examplePoolDrift (some 1000) (some 900) "now").2.drift_a ≠ 0 ∨
      (reconcile_pool examplePoolDrift (some 1000) (some 900) "now").2.drift_b ≠ 0) := by
    right
    decide
  have hmain := C6_pool_drift_pauses pow0 examplePoolDrift (some 1000) (some 900) "now" h
  exact ⟨h, hmain.1, hmain.2.1, hmain.2.2 1000 "TKA"⟩

/-- C7: `reserve` succeeds exactly when `amount ≤ available`; on success it
subtracts `amount` from `available`; `total` is never changed; on failure
the ledger is untouched; and from an absent entry, `credit` then `reserve`
of the same amount succeeds and leaves `(available, total) = (0, amount)`. -/
theorem C7_reserve_spec (l l0 : Ledger) (u t : String) (amt : ℚ)
    (_hamt : 0 ≤ amt) (h0 : l0.balances (u, t) = (0, 0)) :
    ((l.reserve u t amt).2 = true ↔ amt ≤ (l.balances (u, t)).1) ∧
    ((l.reserve u t amt).2 = true →
      ((l.reserve u t amt).1.balances (u, t)).1 = (l.balances (u, t)).1 - amt) ∧
    ((l.reserve u t amt).1.balances (u, t)).2 = (l.balances (u, t)).2 ∧
    ((l.reserve u t amt).2 = false → (l.reserve u t amt).1 = l) ∧
    ((l0.credit u t amt).reserve u t amt).2 = true ∧
    ((l0.credit u t amt).reserve u t amt).1.balances (u, t) = (0, amt) := by
  have hcomp1 : ((l0.credit u t amt).balances (u, t)) = (amt, amt) := by
    simp [Ledger.credit, Function.update, h0]
  have hcomp : ((l0.credit u t amt).reserve u t amt).2 = true ∧
      ((l0.credit u t amt).reserve u t amt).1.balances (u, t) = (0, amt) := by
    simp only [Ledger.reserve, hcomp1]
    simp [Function.update]
  by_cases hlt : (l.balances (u, t)).1 < amt
  · refine ⟨?_, ?_, ?_, ?_, hcomp.1, hcomp.2⟩ <;>
      simp [Ledger.reserve, hlt, not_le.mpr hlt]
  · refine ⟨?_, ?_, ?_, ?_, hcomp.1, hcomp.2⟩ <;>
      simp [Ledger.reserve, hlt, not_lt.mp hlt, Function.update]

/-- C7 witness: reserving 60 from alice's `(40, 40)` fails and mutates
nothing (40 < 60), and the fresh `credit 60; reserve 60` round-trip leaves
`(0, 60)`. -/
theorem C7_witness :
    ((0 : ℚ) ≤ 60) ∧ (Ledger.new.balances ("alice", "USDT") = (0, 0)) ∧
    (((exampleLedgerC2.reserve "alice" "USDT" 60).2 = true ↔
        (60 : ℚ) ≤ (exampleLedgerC2.balances ("alice", "USDT")).1) ∧
    ((exampleLedgerC2.reserve "alice" "USDT" 60).2 = true →
      ((exampleLedgerC2.reserve "alice" "USDT" 60).1.balances ("alice", "USDT")).1 =
        (exampleLedgerC2.balances ("alice", "USDT")).1 - 60) ∧
    ((exampleLedgerC2.reserve "alice" "USDT" 60).1.balances ("alice", "USDT")).2 =
      (exampleLedgerC2.balances ("alice", "USDT")).2 ∧
    ((exampleLedgerC2.reserve "alice" "USDT" 60).2 = false →
      (exampleLedgerC2.reserve "alice" "USDT" 60).1 = exampleLedgerC2) ∧
    ((Ledger.new.credit "alice" "USDT" 60).reserve "alice" "USDT" 60).2 = true ∧
    ((Ledger.new.credit "alice" "USDT" 60).reserve "alice" "USDT" 60).1.balances
      ("alice", "USDT") = (0, 60)) := by
  refine ⟨by norm_num, by simp [Ledger.new], ?_⟩
  exact C7_reserve_spec exampleLedgerC2 Ledger.new "alice" "USDT" 60 (by norm_num)
    (by simp [Ledger.new])

/-- C8: cancel with an unknown id fails `OrderNotFound`; cancel by a
non-owner fails `Internal` leaving the map and ledger untouched; cancel by
the owner removes the order and releases `min(recomputed, reserved)` of the
recomputed reservation token (`price × quantity` of quote for a buy,
`quantity` of base for a sell).  The parse hypotheses are invariants of
stored orders: `handle_place` only inserts orders it parsed successfully
(`handle_place_stores_parseable`). -/
theorem C8_handle_cancel (parseNum : String → Option ℚ) (l : Ledger) (oo : OpenOrders)
    (user id owner : String) (order : LimitOrder) (reserved : ℚ)
    (base quote : String) (price quantity : ℚ)
    (hmkt : parse_market order.market = some (base, quote))
    (hprice : parseNum order.price = some price)
    (hqty : parseNum order.quantity = some quantity) :
    (oo id = none →
      handle_cancel parseNum l oo user id = (l, oo, Except.error EngineError.OrderNotFound)) ∧
    (oo id = some (owner, order, reserved) → owner ≠ user →
      (handle_cancel parseNum l oo user id).1 = l ∧
      (handle_cancel parseNum l oo user id).2.1 = oo ∧
      (handle_cancel parseNum l oo user id).2.2 = Except.error EngineError.Internal) ∧
    (oo id = some (owner, order, reserved) → owner = user →
      handle_cancel parseNum l oo user id =
        (l.release user
          (match order.side with | Side.Buy => quote | Side.Sell => base)
          (min (match order.side with | Side.Buy => price * quantity | Side.Sell => quantity)
            reserved),
         Function.update oo id none, Except.ok ())) := by
  refine ⟨fun hnone => ?_, fun hsome hne => ?_, fun hsome heq => ?_⟩
  · simp [handle_cancel, hnone]
  · refine ⟨?_, ?_, ?_⟩ <;> simp only [handle_cancel, hsome, hne, ne_eq,
      not_false_eq_true, if_true, ite_true]
    · funext x
      by_cases hx : x = id
      · subst hx
        simp [Function.update, hsome]
      · simp [Function.update, hx]
  · subst heq
    cases hside : order.side <;>
      simp [handle_cancel, hsome, hmkt, hprice, hqty, hside]

/-- C8 witness: alice's resting buy (`ETH/USDT`, price 2, qty 100, 200
reserved): unknown-id cancel → `OrderNotFound`; mallory's cancel →
`Internal`, map intact; alice's cancel → removed and 200 USDT released. -/
theorem C8_witness :
    (parse_market exampleOrder.market = some ("ETH", "USDT")) ∧
    (demoParseNum exampleOrder.price = some 2) ∧
    (demoParseNum exampleOrder.quantity = some 100) ∧
    ((exampleOpenOrders "missing" = none →
      handle_cancel demoParseNum Ledger.new exampleOpenOrders "alice" "missing" =
        (Ledger.new, exampleOpenOrders, Except.error EngineError.OrderNotFound)) ∧
    (exampleOpenOrders "o1" = some ("alice", exampleOrder, 200) → "alice" ≠ "mallory" →
      (handle_cancel demoParseNum Ledger.new exampleOpenOrders "mallory" "o1").1 = Ledger.new ∧
      (handle_cancel demoParseNum Ledger.new exampleOpenOrders "mallory" "o1").2.1 =
        exampleOpenOrders ∧
      (handle_cancel demoParseNum Ledger.new exampleOpenOrders "mallory" "o1").2.2 =
        Except.error EngineError.Internal) ∧
    (exampleOpenOrders "o1" = some ("alice", exampleOrder, 200) → "alice" = "alice" →
      handle_cancel demoParseNum Ledger.new exampleOpenOrders "alice" "o1" =
        (Ledger.new.release "alice"
          (match exampleOrder.side with | Side.Buy => "USDT" | Side.Sell => "ETH")
          (min (match exampleOrder.side with
                | Side.Buy => (2 : ℚ) * 100 | Side.Sell => (100 : ℚ)) 200),
         Function.update exampleOpenOrders "o1" none, Except.ok ()))) := by
  have hmkt : parse_market exampleOrder.market = some ("ETH", "USDT") := by rfl
  have hprice : demoParseNum exampleOrder.price = some 2 := by rfl
  have hqty : demoParseNum exampleOrder.quantity = some 100 := by rfl
  refine ⟨hmkt, hprice, hqty, ?_, ?_, ?_⟩
  · exact fun h =>
      (C8_handle_cancel demoParseNum Ledger.new exampleOpenOrders "alice" "missing" "alice"
        exampleOrder 200 "ETH" "USDT" 2 100 hmkt hprice hqty).1 h
  · exact fun h hne =>
      (C8_handle_cancel demoParseNum Ledger.new exampleOpenOrders "mallory" "o1" "alice"
        exampleOrder 200 "ETH" "USDT" 2 100 hmkt hprice hqty).2.1 h hne
  · exact fun h heq =>
      (C8_handle_cancel demoParseNum Ledger.new exampleOpenOrders "alice" "o1" "alice"
        exampleOrder 200 "ETH" "USDT" 2 100 hmkt hprice hqty).2.2 h heq

theorem reserve_true_state (l : Ledger) (u t : String) (amt : ℚ)
    (h : (l.reserve u t amt).2 = true) :
    (l.reserve u t amt).1 =
      { l with
        balances := Function.update l.balances (u, t)
            ((l.balances (u, t)).1 - amt, (l.balances (u, t)).2) } := by
  by_cases hlt : (l.balances (u, t)).1 < amt
  · simp [Ledger.reserve, hlt] at h
  · simp [Ledger.reserve, hlt]

/-- C9 counterexample: a pool with supply 10 and reserves 10/10 and the
deposit `(100, 100)`: `calculate_lp_mint` returns `Ok(100)` (> supply), and
`calculate_remove_amounts(100)` rejects with `InsufficientLPTokens`
(`lp > total_lp_supply`), not an `Ok` pair — the round-trip claim fails
without the extra bound `L ≤ total_lp_supply`. -/
theorem C9_counterexample :
    0 < examplePoolSmall.total_lp_supply ∧
    0 < examplePoolSmall.reserve_a ∧ 0 < examplePoolSmall.reserve_b ∧
    examplePoolSmall.calculate_lp_mint 100 100 = Except.ok 100 ∧
    examplePoolSmall.calculate_remove_amounts 100 =
      Except.error PoolError.InsufficientLPTokens := by
  exact ⟨by decide, by decide, by decide, by rfl, by rfl⟩

/-- C9 amended: when additionally the minted `L` does not exceed the
current supply, `calculate_remove_amounts L` succeeds and returns
`(a', b')` with `a' ≤ a` and `b' ≤ b` (integer rounding down). -/
theorem C9_lp_mint_remove_le (p : LiquidityPool) (a b L : ℕ)
    (hS : 0 < p.total_lp_supply) (hA : 0 < p.reserve_a) (_hB : 0 < p.reserve_b)
    (hmint : p.calculate_lp_mint a b = Except.ok L)
    (hle : L ≤ p.total_lp_supply) :
    ∃ a' b', p.calculate_remove_amounts L = Except.ok (a', b') ∧ a' ≤ a ∧ b' ≤ b := by
  have hS' : p.total_lp_supply ≠ 0 := hS.ne'
  simp only [LiquidityPool.calculate_lp_mint, hS', if_false, ite_false] at hmint
  by_cases hz :
      u64cast (min (a * p.total_lp_supply / p.reserve_a)
        (b * p.total_lp_supply / p.reserve_b)) = 0
  · rw [if_pos hz] at hmint
    exact absurd hmint (by simp)
  · rw [if_neg hz] at hmint
    have hL : L = u64cast (min (a * p.total_lp_supply / p.reserve_a)
        (b * p.total_lp_supply / p.reserve_b)) := by
      cases hmint
      rfl
    have hLne : L ≠ 0 := by rw [hL]; exact hz
    have hLa : L ≤ a * p.total_lp_supply / p.reserve_a := by
      rw [hL]
      exact le_trans (Nat.mod_le _ _) (min_le_left _ _)
    have hLb : L ≤ b * p.total_lp_supply / p.reserve_b := by
      rw [hL]
      exact le_trans (Nat.mod_le _ _) (min_le_right _ _)
    have ha' : u64cast (L * p.reserve_a / p.total_lp_supply) ≤ a := by
      have h1 : L * p.reserve_a ≤ a * p.total_lp_supply :=
        (Nat.le_div_iff_mul_le hA).mp hLa
      calc u64cast (L * p.reserve_a / p.total_lp_supply)
          ≤ L * p.reserve_a / p.total_lp_supply := Nat.mod_le _ _
        _ ≤ a * p.total_lp_supply / p.total_lp_supply := Nat.div_le_div_right h1
        _ = a := Nat.mul_div_cancel a hS
    have hb' : u64cast (L * p.reserve_b / p.total_lp_supply) ≤ b := by
      have h1 : L * p.reserve_b ≤ b * p.total_lp_supply :=
        (Nat.le_div_iff_mul_le _hB).mp hLb
      calc u64cast (L * p.reserve_b / p.total_lp_supply)
          ≤ L * p.reserve_b / p.total_lp_supply := Nat.mod_le _ _
        _ ≤ b * p.total_lp_supply / p.total_lp_supply := Nat.div_le_div_right h1
        _ = b := Nat.mul_div_cancel b hS
    refine ⟨_, _, ?_, ha', hb'⟩
    simp only [LiquidityPool.calculate_remove_amounts, hLne, if_false, ite_false,
      not_lt.mpr hle]

/-- C9 witness: same small pool, deposit `(5, 5)`: mint `Ok(5)`,
`5 ≤ 10`, and removing 5 LP returns `(5, 5) ≤ (5, 5)`. -/
theorem C9_witness :
    (0 < examplePoolSmall.total_lp_supply ∧
     0 < examplePoolSmall.reserve_a ∧ 0 < examplePoolSmall.reserve_b ∧
     examplePoolSmall.calculate_lp_mint 5 5 = Except.ok 5 ∧
     5 ≤ examplePoolSmall.total_lp_supply) ∧
    (∃ a' b', examplePoolSmall.calculate_remove_amounts 5 = Except.ok (a', b') ∧
      a' ≤ 5 ∧ b' ≤ 5) := by
  exact ⟨⟨by decide, by decide, by decide, by rfl, by decide⟩,
    C9_lp_mint_remove_le examplePoolSmall 5 5 5 (by decide) (by decide) (by decide)
      (by rfl) (by decide)⟩

/-- C10: when the pool exists, the ACL does not deny, both reservations
succeed and `calculate_lp_mint` fails, the `add_liquidity` handler does not
surface the error: it substitutes exactly 1 LP token, debits the deposited
amounts from the two token totals, credits the user 1 unit of the LP token,
and returns the success response — `InsufficientLiquidityMinted` is never
observable through this endpoint. -/
theorem C10_add_liquidity_mint_fallback
    (pools : String → Option LiquidityPool) (acl : AclCheck) (l : Ledger)
    (queue : List PoolDepositOp)
    (wallet pid sa sb : String) (pool : LiquidityPool) (a b : ℕ) (e : PoolError)
    (hpool : pools pid = some pool)
    (hacl : ¬ (pool.on_chain_storage_account ≠ "" ∧ acl = AclCheck.denied))
    (hopt : pool.calculate_optimal_amounts (parse_u64 sa) (parse_u64 sb) = (a, b))
    (hrA : (l.reserve wallet pool.token_a (a : ℚ)).2 = true)
    (hrB : ((l.reserve wallet pool.token_a (a : ℚ)).1.reserve wallet pool.token_b
        (b : ℚ)).2 = true)
    (hmint : pool.calculate_lp_mint a b = Except.error e)
    (hab : pool.token_a ≠ pool.token_b)
    (hla : pool.lp_token ≠ pool.token_a)
    (hlb : pool.lp_token ≠ pool.token_b) :
    (add_liquidity pools acl l queue wallet pid sa sb).2.2 =
      AddLiquidityOutcome.success a b 1 ∧
    (add_liquidity pools acl l queue wallet pid sa sb).1.balances (wallet, pool.token_a) =
      ((l.balances (wallet, pool.token_a)).1 - a, (l.balances (wallet, pool.token_a)).2 - a) ∧
    (add_liquidity pools acl l queue wallet pid sa sb).1.balances (wallet, pool.token_b) =
      ((l.balances (wallet, pool.token_b)).1 - b, (l.balances (wallet, pool.token_b)).2 - b) ∧
    (add_liquidity pools acl l queue wallet pid sa sb).1.balances (wallet, pool.lp_token) =
      ((l.balances (wallet, pool.lp_token)).1 + 1, (l.balances (wallet, pool.lp_token)).2 + 1)
    := by
  have hkeyAB : ((wallet, pool.token_a) : Key) ≠ (wallet, pool.token_b) := by
    intro hcontra
    exact hab (congrArg Prod.snd hcontra)
  have hkeyBA : ((wallet, pool.token_b) : Key) ≠ (wallet, pool.token_a) := by
    intro hcontra
    exact hab (congrArg Prod.snd hcontra).symm
  have hkeyAL : ((wallet, pool.token_a) : Key) ≠ (wallet, pool.lp_token) := by
    intro hcontra
    exact hla (congrArg Prod.snd hcontra).symm
  have hkeyBL : ((wallet, pool.token_b) : Key) ≠ (wallet, pool.lp_token) := by
    intro hcontra
    exact hlb (congrArg Prod.snd hcontra).symm
  have hstA := reserve_true_state l wallet pool.token_a (a : ℚ) hrA
  have hstB := reserve_true_state (l.reserve wallet pool.token_a (a : ℚ)).1 wallet
    pool.token_b (b : ℚ) hrB
  simp only [add_liquidity, hpool, hopt, hrA, hrB, hmint, if_neg hacl]
  rw [hstB]
  rw [hstA]
  refine ⟨by simp, ?_, ?_, ?_⟩ <;>
    simp [Ledger.debit_total, Ledger.credit, Function.update, hkeyAB, hkeyBA, hkeyAL,
      hkeyBL, hab, hla, hlb]

/-- C10 witness: pool `TKA-TKB` (reserves 1000/1000, supply 999), request
with desired amounts `"0"`: both zero-amount reservations succeed,
`calculate_lp_mint 0 0` fails with `InsufficientLiquidityMinted`, yet the
handler answers `success` with exactly 1 LP token credited. -/
theorem C10_witness :
    (examplePools "TKA-TKB" = some examplePoolDrift) ∧
    (¬ (examplePoolDrift.on_chain_storage_account ≠ "" ∧
        AclCheck.granted = AclCheck.denied)) ∧
    (examplePoolDrift.calculate_optimal_amounts (parse_u64 "0") (parse_u64 "0") = (0, 0)) ∧
    ((Ledger.new.reserve "bob" examplePoolDrift.token_a ((0 : ℕ) : ℚ)).2 = true) ∧
    (((Ledger.new.reserve "bob" examplePoolDrift.token_a ((0 : ℕ) : ℚ)).1.reserve "bob"
        examplePoolDrift.token_b ((0 : ℕ) : ℚ)).2 = true) ∧
    (examplePoolDrift.calculate_lp_mint 0 0 =
      Except.error PoolError.InsufficientLiquidityMinted) ∧
    ((add_liquidity examplePools AclCheck.granted Ledger.new [] "bob" "TKA-TKB" "0" "0").2.2 =
      AddLiquidityOutcome.success 0 0 1 ∧
     (add_liquidity examplePools AclCheck.granted Ledger.new [] "bob" "TKA-TKB" "0" "0").1.balances
        ("bob", examplePoolDrift.token_a) =
       ((Ledger.new.balances ("bob", examplePoolDrift.token_a)).1 - 0,
        (Ledger.new.balances ("bob", examplePoolDrift.token_a)).2 - 0) ∧
     (add_liquidity examplePools AclCheck.granted Ledger.new [] "bob" "TKA-TKB" "0" "0").1.balances
        ("bob", examplePoolDrift.token_b) =
       ((Ledger.new.balances ("bob", examplePoolDrift.token_b)).1 - 0,
        (Ledger.new.balances ("bob", examplePoolDrift.token_b)).2 - 0) ∧
     (add_liquidity examplePools AclCheck.granted Ledger.new [] "bob" "TKA-TKB" "0" "0").1.balances
        ("bob", examplePoolDrift.lp_token) =
       ((Ledger.new.balances ("bob", examplePoolDrift.lp_token)).1 + 1,
        (Ledger.new.balances ("bob", examplePoolDrift.lp_token)).2 + 1)) := by
  have hpool : examplePools "TKA-TKB" = some examplePoolDrift := rfl
  have hacl : ¬ (examplePoolDrift.on_chain_storage_account ≠ "" ∧
      AclCheck.granted = AclCheck.denied) := by decide
  have hopt : examplePoolDrift.calculate_optimal_amounts (parse_u64 "0") (parse_u64 "0") =
      (0, 0) := rfl
  have hrA : (Ledger.new.reserve "bob" examplePoolDrift.token_a ((0 : ℕ) : ℚ)).2 = true := by
    norm_num [Ledger.new, Ledger.reserve]
  have hrB : ((Ledger.new.reserve "bob" examplePoolDrift.token_a ((0 : ℕ) : ℚ)).1.reserve "bob"
      examplePoolDrift.token_b ((0 : ℕ) : ℚ)).2 = true := by
    norm_num [Ledger.new, Ledger.reserve, Function.update]
  have hmint : examplePoolDrift.calculate_lp_mint 0 0 =
      Except.error PoolError.InsufficientLiquidityMinted := rfl
  have hmain := C10_add_liquidity_mint_fallback examplePools AclCheck.granted Ledger.new []
    "bob" "TKA-TKB" "0" "0" examplePoolDrift 0 0 PoolError.InsufficientLiquidityMinted
    hpool hacl hopt hrA hrB hmint (by decide) (by decide) (by decide)
  refine ⟨hpool, hacl, hopt, hrA, hrB, hmint, hmain.1, ?_, ?_, hmain.2.2.2⟩
  · rw [hmain.2.1]
    norm_num
  · rw [hmain.2.2.1]
    norm_num

end Keythings
